import Mathlib

set_option linter.unusedVariables false

namespace Orchestrator

/-- Configured constants, mirroring the module-level environment defaults of
`scripts/orchestrator.py` (lines 25-41). -/
def NAMESPACE : String := "insider-testops"

def CHROME_NODE_HEADLESS_SVC : String := "chrome-node-headless"

def HELM_RELEASE_NAME : String := "insider-testops"

def MAX_RETRIES : Nat := 3

def DEFAULT_NODE_COUNT : Int := 1

def MIN_NODE_COUNT : Int := 1

def MAX_NODE_COUNT : Int := 5

/-- Pod snapshot as used by the orchestrator: name, phase string, and the
per-container ready flags (an empty list models a missing/empty
`container_statuses`). -/
structure Pod where
  name : String
  phase : String
  containerStatuses : List Bool

/-- Embeds `_isPodReady` (orchestrator.py lines 111-116): phase must be
"Running", `container_statuses` non-empty, and every container ready. -/
def isPodReady (p : Pod) : Bool :=
  if p.phase ≠ "Running" then false
  else if p.containerStatuses = [] then false
  else p.containerStatuses.all (fun b => b)

/-- Python truthiness of an optional string (`if not name:` is taken for both
`None` and the empty string). -/
def strOptTruthy : Option String → Bool
  | none => false
  | some s => s ≠ ""

/-- Embeds `_getPodName` (lines 105-109): first listed pod's name, else None. -/
def getPodName : List Pod → Option String
  | [] => none
  | p :: _ => some p.name

/-- JSON values, as decoded by `json.loads` in `_checkChromeNodeStatus`. -/
inductive Json where
  | null
  | bool (b : Bool)
  | num (n : Int)
  | str (s : String)
  | arr (elems : List Json)
  | obj (fields : List (String × Json))

/-- Whether a decoded value is Python `None` (JSON null). -/
def Json.isNull : Json → Bool
  | .null => true
  | _ => false

/-- Python truthiness of a decoded JSON value. -/
def pyTruthy : Json → Bool
  | .null => false
  | .bool b => b
  | .num n => n != 0
  | .str s => s ≠ ""
  | .arr xs => !xs.isEmpty
  | .obj fs => !fs.isEmpty

/-- Python `d.get(key, default)`: `none` models the AttributeError raised when
the receiver is not a dict (caught by the enclosing `except Exception`). -/
def dictGetD (j : Json) (key : String) (dflt : Json) : Option Json :=
  match j with
  | .obj fields =>
    match fields.find? (fun p => p.1 == key) with
    | some p => some p.2
    | none => some dflt
  | _ => none

/-- Python `len(x)` on a decoded JSON value; `none` models the TypeError on
non-sized values. -/
def pyLen : Json → Option Nat
  | .arr xs => some xs.length
  | .str s => some s.length
  | .obj fs => some fs.length
  | _ => none

/-- Python `for x in v`: arrays yield elements, strings yield one-character
strings, dicts yield their keys; `none` models the TypeError on
non-iterable values. -/
def pyIter : Json → Option (List Json)
  | .arr xs => some xs
  | .str s => some (s.data.map (fun c => Json.str (String.mk [c])))
  | .obj fs => some (fs.map (fun p => Json.str p.1))
  | _ => none

/-- Inner loop of `_checkChromeNodeStatus` (lines 143-145): counts slots whose
`session` entry is not None, accumulating onto `acc`. -/
def countOccupied : List Json → Nat → Option Nat
  | [], acc => some acc
  | slot :: rest, acc => do
    let s ← dictGetD slot "session" Json.null
    countOccupied rest (if s.isNull then acc else acc + 1)

/-- Outer loop of `_checkChromeNodeStatus` (lines 140-145): for each node
entry, `maxSessions` is overwritten with that node's slot count while the
occupied slots accumulate across all nodes. -/
def scanNodes : List Json → Nat → Nat → Option (Nat × Nat)
  | [], act, mx => some (act, mx)
  | node :: rest, act, mx => do
    let slotsJ ← dictGetD node "slots" (Json.arr [])
    let mx2 ← pyLen slotsJ
    let slotList ← pyIter slotsJ
    let act2 ← countOccupied slotList act
    scanNodes rest act2 mx2

/-- Body of the `try` block of `_checkChromeNodeStatus` (lines 132-147) after
`json.loads` succeeded: extracts the truthiness of `value.ready` plus the
(activeSessions, maxSessions) pair; `none` models a raised exception. -/
def parseStatus (body : Json) : Option (Bool × Nat × Nat) := do
  let value ← dictGetD body "value" (Json.obj [])
  let readyJ ← dictGetD value "ready" (Json.bool false)
  let nodesJ ← dictGetD value "nodes" (Json.arr [])
  let nodesList ← pyIter nodesJ
  let (act, mx) ← scanNodes nodesList 0 1
  some (pyTruthy readyJ, act, mx)

/-- Outcome of the curl probe run inside the controller pod, abstracted at the
`json.loads` boundary: `execFail` covers a non-zero exit or blank stdout
(line 128), `parseFail` a `json.JSONDecodeError`, `parsed` the decoded
document. -/
inductive ProbeResult where
  | execFail
  | parseFail
  | parsed (body : Json)

/-- Status dictionary returned by `_checkChromeNodeStatus`; the `available`
and `ready` fields are recorded by their Python truthiness. -/
structure NodeStatus where
  available : Bool
  ready : Bool
  sessions : Nat
  maxSessions : Nat

/-- Embeds `_checkChromeNodeStatus` (lines 121-160): any probe failure or
exception yields the all-false status; otherwise availability is
`ready and activeSessions < maxSessions`. -/
def checkChromeNodeStatus : ProbeResult → NodeStatus
  | .execFail => ⟨false, false, 0, 0⟩
  | .parseFail => ⟨false, false, 0, 0⟩
  | .parsed body =>
    match parseStatus body with
    | none => ⟨false, false, 0, 0⟩
    | some (rdy, act, mx) => ⟨rdy && decide (act < mx), rdy, act, mx⟩

/-- Embeds `_getChromeNodeDns` (lines 118-119). -/
def chromeNodeDns (podName : String) : String :=
  podName ++ "." ++ CHROME_NODE_HEADLESS_SVC ++ "." ++ NAMESPACE ++ ".svc.cluster.local"

/-- Candidate loop of `_getAvailableChromeNode` (lines 179-195): skip pods
that are not cluster-ready, probe the rest in listing order, return the
first DNS name whose status is available. -/
def findAvailableNode (probe : String → ProbeResult) : List Pod → Option String
  | [] => none
  | pod :: rest =>
    if !isPodReady pod then findAvailableNode probe rest
    else
      if (checkChromeNodeStatus (probe (chromeNodeDns pod.name))).available then
        some (chromeNodeDns pod.name)
      else findAvailableNode probe rest

/-- Embeds `_getAvailableChromeNode` (lines 162-195): requires a truthy
controller pod name and a non-empty worker pod list, then scans candidates
in listing order. -/
def getAvailableChromeNode (controllerPods chromePods : List Pod)
    (probe : String → ProbeResult) : Option String :=
  if !strOptTruthy (getPodName controllerPods) then none
  else
    match chromePods with
    | [] => none
    | _ :: _ => findAvailableNode probe chromePods

/-- Embeds `_validateNodeCount` (lines 85-92): clamp the requested replica
count into [MIN_NODE_COUNT, MAX_NODE_COUNT]; the warning log is the only
other effect. -/
def validateNodeCount (nodeCount : Int) : Int :=
  if nodeCount < MIN_NODE_COUNT then MIN_NODE_COUNT
  else if nodeCount > MAX_NODE_COUNT then MAX_NODE_COUNT
  else nodeCount

/-- Helm command list built by `deploy` (lines 254, 265-282): the replica
count is validated first; the values file is appended only when set and
existing on disk (existence abstracted as a boolean). -/
def deployHelmCommand (helmChartPath effectiveValuesFile : String)
    (valuesFileExists : Bool) (nodeCount : Int) : List String :=
  let v := validateNodeCount nodeCount
  ["helm", "upgrade", "--install", HELM_RELEASE_NAME, helmChartPath,
   "--namespace", NAMESPACE, "--create-namespace"]
  ++ (if effectiveValuesFile ≠ "" && valuesFileExists then ["-f", effectiveValuesFile] else [])
  ++ ["--set", "chromeNode.replicaCount=" ++ toString v,
      "--set", "chromeNode.autoscaling.minReplicas=" ++ toString v,
      "--set", "chromeNode.autoscaling.maxReplicas=" ++ toString MAX_NODE_COUNT,
      "--wait", "--timeout", "5m"]

/-- Ready-pod count of one poll (line 318). -/
def readyCount (pods : List Pod) : Nat :=
  (pods.filter (fun p => isPodReady p)).length

/-- Loop of `checkReadiness` (lines 316-326) with the elapsed wall time made
explicit: `k` is the poll index, `t` the elapsed seconds (each iteration
sleeps `interval` seconds; the poll itself is modelled as instantaneous).
The fuel argument only serves structural termination; `checkReadiness`
supplies enough fuel that it is never exhausted when `0 < interval`. -/
def checkReadinessLoop (timeout interval : Nat) (polls : Nat → List Pod)
    (minReady : Int) : Nat → Nat → Nat → Bool × Nat
  | 0, _, t => (false, t)
  | Nat.succ fuel, k, t =>
    if t < timeout then
      if minReady ≤ (readyCount (polls k) : Int) then (true, t)
      else checkReadinessLoop timeout interval polls minReady fuel (k + 1) (t + interval)
    else (false, t)

/-- Embeds `checkReadiness` (lines 312-329): returns success/failure plus the
elapsed wall time at return. -/
def checkReadiness (timeout interval : Nat) (polls : Nat → List Pod)
    (minReady : Int) : Bool × Nat :=
  checkReadinessLoop timeout interval polls minReady (timeout + 1) 0 0

/-- Python values relevant to `handleErrors`'s runtime result inspection. -/
inductive PyVal where
  | pyBool (b : Bool)
  | pyTuple (elems : List PyVal)
  | pyStr (s : String)
  | pyInt (n : Int)
  | pyNone

/-- Python truthiness of a `PyVal` (used for `if result[0]:`). -/
def pyValTruthy : PyVal → Bool
  | .pyBool b => b
  | .pyTuple xs => !xs.isEmpty
  | .pyStr s => s ≠ ""
  | .pyInt n => n != 0
  | .pyNone => false

/-- One invocation of the wrapped operation: it either raises or returns a
Python value. -/
inductive AttemptOutcome where
  | raises
  | returns (v : PyVal)

/-- Success test of `handleErrors` (lines 458-473): a plain bool succeeds when
true, a non-empty tuple when its first element is truthy, anything else
(including the empty tuple) succeeds unconditionally. -/
def attemptSucceedsVal : PyVal → Bool
  | .pyBool b => b
  | .pyTuple (x :: _) => pyValTruthy x
  | _ => true

/-- Whether one attempt fails (raises, returns a falsy bool, or returns a
tuple with a falsy first element). -/
def attemptFails : AttemptOutcome → Bool
  | .raises => true
  | .returns v => !attemptSucceedsVal v

/-- Retry loop of `handleErrors` (lines 452-483). The third component of the
result counts how many times the operation was invoked (instrumentation,
not part of the source return value). -/
def handleErrorsGo (op : Nat → AttemptOutcome) : Nat → Nat → Bool × Option PyVal × Nat
  | 0, _ => (false, none, 0)
  | Nat.succ fuel, attempt =>
    match op attempt with
    | .raises =>
      let r := handleErrorsGo op fuel (attempt + 1)
      (r.1, r.2.1, r.2.2 + 1)
    | .returns v =>
      if attemptSucceedsVal v then (true, some v, 1)
      else
        let r := handleErrorsGo op fuel (attempt + 1)
        (r.1, r.2.1, r.2.2 + 1)

/-- Embeds `handleErrors` (lines 443-483): up to MAX_RETRIES attempts, success
returns the attempt's result, exhaustion returns (False, None). -/
def handleErrors (op : Nat → AttemptOutcome) : Bool × Option PyVal × Nat :=
  handleErrorsGo op MAX_RETRIES 1

/-- Prefix-at-every-suffix scan underlying the substring test. -/
def containsSub (pat : List Char) : List Char → Bool
  | [] => pat.isPrefixOf []
  | a :: t => pat.isPrefixOf (a :: t) || containsSub pat t

/-- Python substring test `pat in s`. -/
def strContains (s pat : String) : Bool :=
  containsSub pat.data s.data

/-- Python `s.lower()` (all text compared here is ASCII). -/
def pyLower (s : String) : String :=
  String.mk (s.data.map Char.toLower)

/-- Python whitespace, as stripped by `str.strip()`. -/
def isPySpace (c : Char) : Bool :=
  c = ' ' || c = '\t' || c = '\n' || c = '\r' || c = Char.ofNat 11 || c = Char.ofNat 12

/-- Python `s.strip()`: drop whitespace from both ends. -/
def pyStrip (s : String) : String :=
  String.mk (((s.data.dropWhile isPySpace).reverse.dropWhile isPySpace).reverse)

/-- Python `s.split(sep)` for a one-character separator. -/
def splitOnChar (sep : Char) : List Char → List (List Char)
  | [] => [[]]
  | c :: t =>
    if c = sep then [] :: splitOnChar sep t
    else
      match splitOnChar sep t with
      | [] => [[c]]
      | h :: r => (c :: h) :: r

/-- Python `stdout.split("\n")`. -/
def pySplitLines (s : String) : List String :=
  (splitOnChar '\n' s.data).map (fun l => String.mk l)

/-- Python `s.startswith(pat)`. -/
def strStartsWith (s pat : String) : Bool :=
  pat.data.isPrefixOf s.data

/-- Output heuristic of `executeTests` (line 430): lower-cased stdout contains
"passed" and does not contain "failed". -/
def heuristicPass (out : String) : Bool :=
  strContains (pyLower out) "passed" && !strContains (pyLower out) "failed"

/-- The pytest command built by `executeTests` (lines 398-401): a truthy
`specificTests` list is run verbatim, otherwise the whole `testPath`. -/
def pytestCommand (testPath : String) (specificTests : Option (List String)) : List String :=
  match specificTests with
  | some (t :: ts) => ["python", "-m", "pytest"] ++ (t :: ts) ++ ["-v", "--tb=short", "-p", "no:cacheprovider"]
  | _ => ["python", "-m", "pytest", testPath, "-v", "--tb=short", "-p", "no:cacheprovider"]

/-- Remote URL handed to the test command (line 395). -/
def remoteUrl (node : String) : String :=
  "http://" ++ node ++ ":4444"

/-- Retry loop of `executeTests` (lines 409-441): each attempt yields
(returncode, stdout, stderr); success on exit code zero or on the output
heuristic; on exhaustion the last attempt's stdout (or stderr when stdout
is blank) is returned. -/
def executeLoop (execRun : Nat → Int × String × String) :
    Nat → Nat → String → String → Bool × String
  | 0, _, lastOut, lastErr => (false, if lastOut ≠ "" then lastOut else lastErr)
  | Nat.succ fuel, attempt, _, _ =>
    let r := execRun attempt
    if r.1 = 0 then (true, r.2.1)
    else if heuristicPass r.2.1 then (true, r.2.1)
    else executeLoop execRun fuel (attempt + 1) r.2.1 r.2.2

/-- External world of `executeTests`: the pod lists fetched from the cluster,
the status probe, and the remote exec outcome per (remote URL, command,
attempt). -/
structure ExecEnv where
  controllerPods : List Pod
  chromePods : List Pod
  probe : String → ProbeResult
  execRun : String → List String → Nat → Int × String × String

/-- Embeds `executeTests` (lines 380-441): fails fast when the controller pod
or an available worker node is missing, then runs the retry loop. -/
def executeTests (env : ExecEnv) (testPath : String)
    (specificTests : Option (List String)) : Bool × String :=
  if !strOptTruthy (getPodName env.controllerPods) then (false, "Test Controller Pod not found")
  else
    match getAvailableChromeNode env.controllerPods env.chromePods env.probe with
    | none => (false, "No available Chrome Node")
    | some node =>
      executeLoop (env.execRun (remoteUrl node) (pytestCommand testPath specificTests))
        MAX_RETRIES 1 "" ""

/-- Line filter of `passTestCases` (lines 354-358): strip each line, keep the
non-empty ones containing "::" that do not start with "=", "-" or " ". -/
def collectTestCases (stdout : String) : List String :=
  ((pySplitLines stdout).map pyStrip).filter (fun l =>
    l ≠ "" && strContains l "::" &&
      !(strStartsWith l "=" || strStartsWith l "-" || strStartsWith l " "))

/-- Retry loop of `passTestCases` (lines 334-378): each attempt looks up the
controller pod (a falsy name retries) and parses the collection output;
exhaustion yields the empty list. -/
def passTestCasesLoop (controllerLookup : Nat → Option String)
    (collectExec : Nat → Int × String × String) : Nat → Nat → List String
  | 0, _ => []
  | Nat.succ fuel, attempt =>
    if !strOptTruthy (controllerLookup attempt) then
      passTestCasesLoop controllerLookup collectExec fuel (attempt + 1)
    else
      let r := collectExec attempt
      let testCases := collectTestCases r.2.1
      if testCases ≠ [] then testCases
      else passTestCasesLoop controllerLookup collectExec fuel (attempt + 1)

/-- Embeds `passTestCases` (lines 331-378). -/
def passTestCases (controllerLookup : Nat → Option String)
    (collectExec : Nat → Int × String × String) : List String :=
  passTestCasesLoop controllerLookup collectExec MAX_RETRIES 1

/-- Effective node count of `run` (line 513): Python `nodeCount or
DEFAULT_NODE_COUNT` replaces None and 0 by the default. -/
def effectiveNodeCount : Option Int → Int
  | none => DEFAULT_NODE_COUNT
  | some n => if n = 0 then DEFAULT_NODE_COUNT else n

/-- Deploy-step guard of `run` (line 526): deployment is attempted only when
not skipped and the chart path is truthy. -/
def deployAttempted (helmChartPath : Option String) (skipDeploy : Bool) : Bool :=
  !skipDeploy && strOptTruthy helmChartPath

/-- External world of a full `run`: outcomes of `deploy` per wrapper attempt,
the readiness polls for both labels, the collection lookups/execs, and the
execution environment. -/
structure RunEnv where
  deployResults : Nat → Bool
  timeout : Nat
  interval : Nat
  chromePolls : Nat → List Pod
  controllerPolls : Nat → List Pod
  collectController : Nat → Option String
  collectExec : Nat → Int × String × String
  execEnv : ExecEnv

/-- Deploy stage of `run` (lines 528-534): `handleErrors` wrapped around the
boolean-returning `deploy`. -/
def deployStage (env : RunEnv) : Bool × Option PyVal × Nat :=
  handleErrors (fun i => AttemptOutcome.returns (PyVal.pyBool (env.deployResults i)))

/-- Embeds `run` (lines 512-575), instrumented with the list of stages that
were executed (in order). The boolean component is exactly the source's
return value; note that step 4's collected test cases are never passed to
step 5, which always runs with the default "tests/" path. -/
def runT (env : RunEnv) (helmChartPath : Option String) (nodeCount : Option Int)
    (skipDeploy : Bool) : Bool × List String :=
  let enc := effectiveNodeCount nodeCount
  let pre := if deployAttempted helmChartPath skipDeploy then ["deploy"] else []
  if deployAttempted helmChartPath skipDeploy && !(deployStage env).1 then (false, pre)
  else if !(checkReadiness env.timeout env.interval env.chromePolls enc).1 then
    (false, pre ++ ["readyWorkers"])
  else if !(checkReadiness env.timeout env.interval env.controllerPolls 1).1 then
    (false, pre ++ ["readyWorkers", "readyController"])
  else
    let testCases := passTestCases env.collectController env.collectExec
    ((executeTests env.execEnv "tests/" none).1,
      pre ++ ["readyWorkers", "readyController", "collectTests", "executeTests"])

/-- Return value of `run` (lines 512-575). -/
def run (env : RunEnv) (helmChartPath : Option String) (nodeCount : Option Int)
    (skipDeploy : Bool) : Bool :=
  (runT env helmChartPath nodeCount skipDeploy).1

/-- Follows the spec wording, not the code: the nodes list of a probed status
body, for stating "total slot count in the probed status body". -/
def specNodesOf (body : Json) : List Json :=
  match dictGetD body "value" (Json.obj []) with
  | some value =>
    match dictGetD value "nodes" (Json.arr []) with
    | some (Json.arr ns) => ns
    | _ => []
  | none => []

/-- Follows the spec wording: the slots list of one node entry. -/
def specSlotsOf (node : Json) : List Json :=
  match dictGetD node "slots" (Json.arr []) with
  | some (Json.arr ss) => ss
  | _ => []

/-- Follows the spec wording: capacity as "total slot count in the probed
status body" (summed over every node entry). -/
def specTotalSlotCount (body : Json) : Nat :=
  ((specNodesOf body).map (fun n => (specSlotsOf n).length)).sum

/-- Follows the spec wording: active sessions as "occupied slots summed over
the probed status body". -/
def specOccupiedSlotCount (body : Json) : Nat :=
  ((specNodesOf body).map (fun n =>
    ((specSlotsOf n).filter (fun s =>
      match dictGetD s "session" Json.null with
      | some v => !v.isNull
      | none => false)).length)).sum

/-- Concrete fixture: a cluster-ready worker pod. -/
def c0Pod : Pod := ⟨"chrome-node-0", "Running", [true]⟩

/-- Concrete fixture: a cluster-ready controller pod. -/
def ctrlPod : Pod := ⟨"test-controller-0", "Running", [true]⟩

/-- Concrete fixture: a valid status body whose nodes list is empty. -/
def c1Body : Json :=
  Json.obj [("value", Json.obj [("ready", Json.bool true), ("nodes", Json.arr [])])]

/-- Concrete fixture: every probe answers with the empty-nodes body. -/
def c1Probe : String → ProbeResult := fun _ => ProbeResult.parsed c1Body

/-- Concrete fixture: a slot holding an active session. -/
def occupiedSlot : Json := Json.obj [("session", Json.obj [("id", Json.str "s1")])]

/-- Concrete fixture: a free slot. -/
def freeSlot : Json := Json.obj [("session", Json.null)]

/-- Concrete fixture: a ready status body with a single node exposing the
given slots. -/
def nodeBody (slots : List Json) : Json :=
  Json.obj [("value", Json.obj [("ready", Json.bool true),
    ("nodes", Json.arr [Json.obj [("slots", Json.arr slots)]])])]

/-- Concrete fixture for the C4 scenario: a ready worker with 1/1 sessions. -/
def c4FullPod : Pod := ⟨"chrome-node-0", "Running", [true]⟩

/-- Concrete fixture for the C4 scenario: a not-ready worker. -/
def c4NotReadyPod : Pod := ⟨"chrome-node-1", "Pending", []⟩

/-- Concrete fixture for the C4 scenario: a ready worker with 0/1 sessions. -/
def c4FreePod : Pod := ⟨"chrome-node-2", "Running", [true]⟩

/-- Concrete fixture for the C4 scenario: the probe answers per DNS name. -/
def c4Probe : String → ProbeResult := fun d =>
  if d = chromeNodeDns "chrome-node-0" then ProbeResult.parsed (nodeBody [occupiedSlot])
  else if d = chromeNodeDns "chrome-node-2" then ProbeResult.parsed (nodeBody [freeSlot])
  else ProbeResult.execFail

/-- Concrete fixture: an execution environment whose remote command always
exits 1 with output "2 passed in 0.10s". -/
def env5 : ExecEnv :=
  ⟨[ctrlPod], [c0Pod], fun _ => ProbeResult.parsed (nodeBody [freeSlot]),
   fun _ _ _ => (1, "2 passed in 0.10s", "")⟩

/-- Concrete fixture: remote command exits 1 with stdout
"Tests passed, 0 failed" on every attempt. -/
def env6 : ExecEnv :=
  ⟨[ctrlPod], [c0Pod], fun _ => ProbeResult.parsed (nodeBody [freeSlot]),
   fun _ _ _ => (1, "Tests passed, 0 failed", "")⟩

/-- Concrete fixture: remote command exits 1 with stdout
"Tests passed, 0 errors" on every attempt. -/
def env6b : ExecEnv :=
  ⟨[ctrlPod], [c0Pod], fun _ => ProbeResult.parsed (nodeBody [freeSlot]),
   fun _ _ _ => (1, "Tests passed, 0 errors", "")⟩

/-- Concrete fixture: a run whose collection output never contains a
qualifying line, with all other stages healthy. -/
def env7 : RunEnv :=
  ⟨fun _ => true, 10, 5, fun _ => [c0Pod], fun _ => [ctrlPod],
   fun _ => some "test-controller-0", fun _ => (1, "no tests ran in 0.01s", ""),
   ⟨[ctrlPod], [c0Pod], fun _ => ProbeResult.parsed (nodeBody [freeSlot]),
    fun _ _ _ => (0, "5 passed in 2.30s", "")⟩⟩

/-- Concrete fixture: a run where collection finds nothing but execution
succeeds. -/
def env8 : RunEnv :=
  ⟨fun _ => true, 10, 5, fun _ => [c0Pod], fun _ => [ctrlPod],
   fun _ => some "test-controller-0", fun _ => (0, "no tests ran in 0.01s", ""),
   ⟨[ctrlPod], [c0Pod], fun _ => ProbeResult.parsed (nodeBody [freeSlot]),
    fun _ _ _ => (0, "1 passed in 1.00s", "")⟩⟩

/-- Concrete fixture: a run whose deployment fails on every attempt. -/
def env8f : RunEnv :=
  ⟨fun _ => false, 10, 5, fun _ => [c0Pod], fun _ => [ctrlPod],
   fun _ => some "test-controller-0", fun _ => (0, "", ""),
   ⟨[ctrlPod], [c0Pod], fun _ => ProbeResult.parsed (nodeBody [freeSlot]),
    fun _ _ _ => (0, "1 passed in 1.00s", "")⟩⟩

/-- Concrete fixture: exactly five cluster-ready worker pods on every poll. -/
def fiveReadyPods : List Pod :=
  [⟨"chrome-node-0", "Running", [true]⟩, ⟨"chrome-node-1", "Running", [true]⟩,
   ⟨"chrome-node-2", "Running", [true]⟩, ⟨"chrome-node-3", "Running", [true]⟩,
   ⟨"chrome-node-4", "Running", [true]⟩]

/-- Concrete fixture: a run whose worker polls always show five ready pods. -/
def env10 : RunEnv :=
  ⟨fun _ => true, 10, 5, fun _ => fiveReadyPods, fun _ => [ctrlPod],
   fun _ => some "test-controller-0", fun _ => (0, "", ""),
   ⟨[ctrlPod], [c0Pod], fun _ => ProbeResult.parsed (nodeBody [freeSlot]),
    fun _ _ _ => (0, "1 passed in 1.00s", "")⟩⟩

/-- Concrete fixture: an operation that fails on attempt 1 and succeeds on
attempt 2. -/
def c3Op : Nat → AttemptOutcome := fun j => AttemptOutcome.returns (PyVal.pyBool (j == 2))

/-- The validated replica count always appears verbatim in the helm command. -/
theorem replicaCount_mem_deployHelmCommand (hcp vf : String) (vfe : Bool) (n : Int) :
    ("chromeNode.replicaCount=" ++ toString (validateNodeCount n)) ∈
      deployHelmCommand hcp vf vfe n := by
  unfold deployHelmCommand
  refine List.mem_append_right _ ?_
  simp

/-- Clamping facts about `_validateNodeCount`. -/
theorem validateNodeCount_clamp (n : Int) :
    (1 ≤ validateNodeCount n ∧ validateNodeCount n ≤ 5) ∧
    (n < 1 → validateNodeCount n = 1) ∧
    (5 < n → validateNodeCount n = 5) ∧
    (1 ≤ n → n ≤ 5 → validateNodeCount n = n) := by
  have hm : MIN_NODE_COUNT = 1 := rfl
  have hM : MAX_NODE_COUNT = 5 := rfl
  unfold validateNodeCount
  rw [hm, hM]
  refine ⟨?_, ?_, ?_, ?_⟩
  · split_ifs <;> omega
  · intro h; split_ifs <;> omega
  · intro h; split_ifs <;> omega
  · intro h1 h2; split_ifs <;> omega

/-- C9: for every integer replica count, the validated value produced by
`_validateNodeCount` (and spliced by `deploy` into the helm command) lies in
[1, 5]; out-of-range input is coerced to the nearest bound and in-range
input is returned unchanged. -/
theorem C9_replica_clamp (n : Int) :
    (1 ≤ validateNodeCount n ∧ validateNodeCount n ≤ 5) ∧
    (n < 1 → validateNodeCount n = 1) ∧
    (5 < n → validateNodeCount n = 5) ∧
    (1 ≤ n → n ≤ 5 → validateNodeCount n = n) ∧
    (∀ (hcp vf : String) (vfe : Bool),
      ("chromeNode.replicaCount=" ++ toString (validateNodeCount n)) ∈
        deployHelmCommand hcp vf vfe n) := by
  obtain ⟨h1, h2, h3, h4⟩ := validateNodeCount_clamp n
  exact ⟨h1, h2, h3, h4, fun hcp vf vfe => replicaCount_mem_deployHelmCommand hcp vf vfe n⟩

/-- C9 witness at the concrete out-of-range count 7. -/
theorem C9_replica_clamp_witness :
    validateNodeCount 7 = 5 ∧
    ("chromeNode.replicaCount=" ++ toString (validateNodeCount 7)) ∈
      deployHelmCommand "./helm/insider-testops" "" false 7 :=
  ⟨(C9_replica_clamp 7).2.2.1 (by decide),
   (C9_replica_clamp 7).2.2.2.2 "./helm/insider-testops" "" false⟩

/-- C10: the worker-readiness threshold used by `run` is the unclamped
effective node count (None/0 replaced by the default 1), while `deploy`
clamps; so every requested count above 5 makes readiness demand more pods
than the deployment requested, and a run with node count 7 but only 5 ready
workers fails at the worker-readiness stage. -/
theorem C10_threshold_unclamped :
    (∀ n : Int, 5 < n →
      effectiveNodeCount (some n) = n ∧
      validateNodeCount (effectiveNodeCount (some n)) = 5 ∧
      validateNodeCount (effectiveNodeCount (some n)) < effectiveNodeCount (some n) ∧
      (∀ (hcp vf : String) (vfe : Bool),
        ("chromeNode.replicaCount=" ++ toString (5 : Int)) ∈
          deployHelmCommand hcp vf vfe (effectiveNodeCount (some n)))) ∧
    effectiveNodeCount (some 0) = 1 ∧ effectiveNodeCount none = 1 ∧
    runT env10 (some "./helm/insider-testops") (some 7) false =
      (false, ["deploy", "readyWorkers"]) := by
  refine ⟨?_, by decide, by decide, by decide⟩
  intro n hn
  have he : effectiveNodeCount (some n) = n := by
    simp only [effectiveNodeCount]
    rw [if_neg (by omega : ¬n = 0)]
  have hv : validateNodeCount (effectiveNodeCount (some n)) = 5 := by
    rw [he]
    exact (validateNodeCount_clamp n).2.2.1 hn
  refine ⟨he, hv, by omega, ?_⟩
  intro hcp vf vfe
  have := replicaCount_mem_deployHelmCommand hcp vf vfe (effectiveNodeCount (some n))
  rw [hv] at this
  exact this

/-- Loop invariant of the readiness poller: with positive interval, enough
fuel and elapsed time `t` equal to `k` poll intervals, the loop succeeds
exactly when some reachable poll meets the threshold within the window. -/
theorem checkReadinessLoop_true_iff (timeout interval : Nat) (polls : Nat → List Pod)
    (minReady : Int) :
    ∀ fuel k t, timeout ≤ t + fuel * interval → t = k * interval →
    ((checkReadinessLoop timeout interval polls minReady fuel k t).1 = true ↔
      ∃ j, k ≤ j ∧ j * interval < timeout ∧ minReady ≤ (readyCount (polls j) : Int)) := by
  intro fuel
  induction fuel with
  | zero =>
    intro k t hfuel ht
    simp only [checkReadinessLoop]
    constructor
    · intro h; exact absurd h (by simp)
    · rintro ⟨j, hkj, hjt, _⟩
      have hmul : k * interval ≤ j * interval := Nat.mul_le_mul_right _ hkj
      omega
  | succ fuel ih =>
    intro k t hfuel ht
    simp only [checkReadinessLoop]
    by_cases h1 : t < timeout
    · rw [if_pos h1]
      by_cases h2 : minReady ≤ (readyCount (polls k) : Int)
      · rw [if_pos h2]
        simp only [true_iff]
        exact ⟨k, Nat.le_refl k, by omega, h2⟩
      · rw [if_neg h2]
        have hsm : (fuel + 1) * interval = fuel * interval + interval := Nat.succ_mul fuel interval
        rw [ih (k + 1) (t + interval) (by omega) (by rw [ht]; ring)]
        constructor
        · rintro ⟨j, hj1, hj2, hj3⟩
          exact ⟨j, by omega, hj2, hj3⟩
        · rintro ⟨j, hj1, hj2, hj3⟩
          rcases Nat.eq_or_lt_of_le hj1 with hjk | hjk
          · exact absurd (hjk ▸ hj3) h2
          · exact ⟨j, hjk, hj2, hj3⟩
    · rw [if_neg h1]
      constructor
      · intro h; exact absurd h (by simp)
      · rintro ⟨j, hkj, hjt, _⟩
        have hmul : k * interval ≤ j * interval := Nat.mul_le_mul_right _ hkj
        omega

/-- Elapsed-time bound of the readiness poller's loop on the timeout path. -/
theorem checkReadinessLoop_false_elapsed (timeout interval : Nat) (polls : Nat → List Pod)
    (minReady : Int) :
    ∀ fuel k t, timeout ≤ t + fuel * interval → t < timeout + interval →
    (checkReadinessLoop timeout interval polls minReady fuel k t).1 = false →
    timeout ≤ (checkReadinessLoop timeout interval polls minReady fuel k t).2 ∧
    (checkReadinessLoop timeout interval polls minReady fuel k t).2 < timeout + interval := by
  intro fuel
  induction fuel with
  | zero =>
    intro k t h1 h2 _
    simp only [checkReadinessLoop]
    omega
  | succ fuel ih =>
    intro k t h1 h2 hf
    simp only [checkReadinessLoop] at hf ⊢
    by_cases ha : t < timeout
    · rw [if_pos ha] at hf ⊢
      by_cases hb : minReady ≤ (readyCount (polls k) : Int)
      · rw [if_pos hb] at hf
        exact absurd hf (by simp)
      · rw [if_neg hb] at hf ⊢
        have hsm : (fuel + 1) * interval = fuel * interval + interval := Nat.succ_mul fuel interval
        exact ih (k + 1) (t + interval) (by omega) (by omega) hf
    · rw [if_neg ha] at hf ⊢
      omega

/-- C2: the readiness poller returns true exactly when some polled instant
inside the timeout window reaches the threshold; on the false path the
elapsed wall time lies between the timeout and the timeout plus one poll
interval; and a poll that finds zero pods simply counts zero ready. -/
theorem C2_readiness_poller (timeout interval : Nat) (polls : Nat → List Pod)
    (minReady : Int) (hI : 0 < interval) :
    ((checkReadiness timeout interval polls minReady).1 = true ↔
      ∃ k, k * interval < timeout ∧ minReady ≤ (readyCount (polls k) : Int)) ∧
    ((checkReadiness timeout interval polls minReady).1 = false →
      timeout ≤ (checkReadiness timeout interval polls minReady).2 ∧
      (checkReadiness timeout interval polls minReady).2 ≤ timeout + interval) ∧
    (∀ emptyPolls : Nat → List Pod, (∀ k, emptyPolls k = []) → 0 < minReady →
      (checkReadiness timeout interval emptyPolls minReady).1 = false) ∧
    readyCount [] = 0 := by
  have hfuel : ∀ x : Nat, timeout ≤ 0 + (timeout + 1) * x → True := fun _ _ => trivial
  have hbig : timeout ≤ 0 + (timeout + 1) * interval := by
    have : timeout + 1 ≤ (timeout + 1) * interval := Nat.le_mul_of_pos_right _ hI
    omega
  refine ⟨?_, ?_, ?_, rfl⟩
  · rw [checkReadiness, checkReadinessLoop_true_iff timeout interval polls minReady
      (timeout + 1) 0 0 hbig (by simp)]
    constructor
    · rintro ⟨j, _, hj2, hj3⟩; exact ⟨j, hj2, hj3⟩
    · rintro ⟨j, hj2, hj3⟩; exact ⟨j, Nat.zero_le j, hj2, hj3⟩
  · intro hf
    rw [checkReadiness] at hf ⊢
    have := checkReadinessLoop_false_elapsed timeout interval polls minReady
      (timeout + 1) 0 0 hbig (by omega) hf
    exact ⟨this.1, by omega⟩
  · intro emptyPolls hz hm
    cases hres : (checkReadiness timeout interval emptyPolls minReady).1 with
    | false => rfl
    | true =>
      rw [checkReadiness, checkReadinessLoop_true_iff timeout interval emptyPolls minReady
        (timeout + 1) 0 0 hbig (by simp)] at hres
      obtain ⟨j, _, _, hj⟩ := hres
      rw [hz j] at hj
      simp [readyCount] at hj
      omega

/-- C2 witness: zero pods on every poll with threshold 1 yields failure. -/
theorem C2_readiness_poller_witness :
    (checkReadiness 10 5 (fun _ => ([] : List Pod)) 1).1 = false :=
  (C2_readiness_poller 10 5 (fun _ => []) 1 (by decide)).2.2.1
    (fun _ => []) (fun _ => rfl) (by decide)

/-- Retry-loop invariant of `handleErrors`: if every attempt before `K` fails
and attempt `K` returns a successful value, the loop stops there with that
value, having invoked the operation `K - start + 1` times. -/
theorem handleErrorsGo_success (op : Nat → AttemptOutcome) :
    ∀ fuel start K v, start ≤ K → K < start + fuel →
    (∀ j, start ≤ j → j < K → attemptFails (op j) = true) →
    op K = AttemptOutcome.returns v → attemptSucceedsVal v = true →
    handleErrorsGo op fuel start = (true, some v, K - start + 1) := by
  intro fuel
  induction fuel with
  | zero => intro start K v h1 h2 _ _ _; omega
  | succ fuel ih =>
    intro start K v h1 h2 hfail hK hs
    rcases Nat.eq_or_lt_of_le h1 with hKs | hlt
    · subst hKs
      simp only [handleErrorsGo, hK, hs, if_true, Nat.sub_self]
    · have hf := hfail start (Nat.le_refl start) hlt
      have hcnt : K - (start + 1) + 1 + 1 = K - start + 1 := by omega
      cases hop : op start with
      | raises =>
        simp only [handleErrorsGo, hop]
        rw [ih (start + 1) K v hlt (by omega)
          (fun j ha hb => hfail j (by omega) hb) hK hs]
        rw [hcnt]
      | returns w =>
        have hw : attemptSucceedsVal w = false := by
          rw [hop] at hf
          simpa [attemptFails] using hf
        simp only [handleErrorsGo, hop, hw, if_false]
        rw [ih (start + 1) K v hlt (by omega)
          (fun j ha hb => hfail j (by omega) hb) hK hs]
        rw [hcnt]
        simp

/-- Retry-loop invariant of `handleErrors`: if every attempt in range fails,
the loop exhausts its fuel, invoking the operation once per unit of fuel. -/
theorem handleErrorsGo_exhaust (op : Nat → AttemptOutcome) :
    ∀ fuel start, (∀ j, start ≤ j → j < start + fuel → attemptFails (op j) = true) →
    handleErrorsGo op fuel start = (false, none, fuel) := by
  intro fuel
  induction fuel with
  | zero => intro start _; rfl
  | succ fuel ih =>
    intro start hfail
    have hf := hfail start (Nat.le_refl start) (by omega)
    cases hop : op start with
    | raises =>
      simp only [handleErrorsGo, hop]
      rw [ih (start + 1) (fun j ha hb => hfail j (by omega) (by omega))]
    | returns w =>
      have hw : attemptSucceedsVal w = false := by
        rw [hop] at hf
        simpa [attemptFails] using hf
      simp only [handleErrorsGo, hop, hw, if_false]
      rw [ih (start + 1) (fun j ha hb => hfail j (by omega) (by omega))]
      simp

/-- C3: the generic retry wrapper returns success with the attempt-K result
when the operation fails on the first K-1 attempts and succeeds on attempt
K ≤ MAX_RETRIES (the instrumented third component counts K invocations);
an operation failing on every attempt is invoked exactly MAX_RETRIES times
and the wrapper then reports failure with a None payload. -/
theorem C3_retry_wrapper :
    (∀ (op : Nat → AttemptOutcome) (K : Nat) (v : PyVal),
      1 ≤ K → K ≤ MAX_RETRIES →
      (∀ j, 1 ≤ j → j < K → attemptFails (op j) = true) →
      op K = AttemptOutcome.returns v → attemptSucceedsVal v = true →
      handleErrors op = (true, some v, K)) ∧
    (∀ op : Nat → AttemptOutcome,
      (∀ j, 1 ≤ j → j ≤ MAX_RETRIES → attemptFails (op j) = true) →
      handleErrors op = (false, none, MAX_RETRIES)) := by
  have hM : MAX_RETRIES = 3 := rfl
  constructor
  · intro op K v h1 h2 hfail hK hs
    rw [handleErrors, handleErrorsGo_success op MAX_RETRIES 1 K v h1 (by omega) hfail hK hs]
    have : K - 1 + 1 = K := by omega
    rw [this]
  · intro op h
    exact handleErrorsGo_exhaust op MAX_RETRIES 1 (fun j hj1 hj2 => h j hj1 (by omega))

/-- C3 witness: an operation failing on attempt 1 and returning True on
attempt 2 yields success with that result after 2 invocations. -/
theorem C3_retry_wrapper_witness :
    handleErrors c3Op = (true, some (PyVal.pyBool true), 2) :=
  C3_retry_wrapper.1 c3Op 2 (PyVal.pyBool true) (by decide) (by decide)
    (fun j h1 h2 => by
      have hj : j = 1 := by omega
      subst hj
      decide)
    rfl (by decide)

/-- C10 witness at the concrete requested count 7. -/
theorem C10_threshold_unclamped_witness :
    effectiveNodeCount (some 7) = 7 ∧
    validateNodeCount (effectiveNodeCount (some 7)) = 5 ∧
    validateNodeCount (effectiveNodeCount (some 7)) < effectiveNodeCount (some 7) ∧
    (∀ (hcp vf : String) (vfe : Bool),
      ("chromeNode.replicaCount=" ++ toString (5 : Int)) ∈
        deployHelmCommand hcp vf vfe (effectiveNodeCount (some 7))) :=
  C10_threshold_unclamped.1 7 (by decide)

/-- An available status is always probe-ready with spare capacity as the code
computes it (sessions strictly below maxSessions). -/
theorem available_ready_and_capacity (r : ProbeResult) :
    (checkChromeNodeStatus r).available = true →
    (checkChromeNodeStatus r).ready = true ∧
    (checkChromeNodeStatus r).sessions < (checkChromeNodeStatus r).maxSessions := by
  cases r with
  | execFail => intro h; exact absurd h (by decide)
  | parseFail => intro h; exact absurd h (by decide)
  | parsed body =>
    simp only [checkChromeNodeStatus]
    cases hp : parseStatus body with
    | none => intro h; exact absurd h (by simp)
    | some p =>
      obtain ⟨rdy, act, mx⟩ := p
      intro h
      simp only [Bool.and_eq_true, decide_eq_true_eq] at h
      exact ⟨h.1, h.2⟩

/-- The candidate loop of the node selector is a first-fit search: it returns
the DNS name of the first listed pod that is cluster-ready and whose probe
reports availability. -/
theorem findAvailableNode_eq_find (probe : String → ProbeResult) :
    ∀ l : List Pod, findAvailableNode probe l =
      (l.find? (fun p => isPodReady p &&
        (checkChromeNodeStatus (probe (chromeNodeDns p.name))).available)).map
        (fun p => chromeNodeDns p.name) := by
  intro l
  induction l with
  | nil => rfl
  | cons pod rest ih =>
    simp only [findAvailableNode, List.find?]
    cases hr : isPodReady pod with
    | false => simpa [hr] using ih
    | true =>
      cases ha : (checkChromeNodeStatus (probe (chromeNodeDns pod.name))).available with
      | false => simpa [hr, ha] using ih
      | true => simp [hr, ha]

/-- C1 (amended): whenever the node selector returns a DNS name, it belongs to
a listed pod that is cluster-ready, whose probed status is ready, and whose
probed session count is strictly below the capacity the code computed
(slot count of the last node entry, defaulting to 1 on an empty nodes
list). -/
theorem C1_amended_selector_safety (controllerPods chromePods : List Pod)
    (probe : String → ProbeResult) (d : String)
    (h : getAvailableChromeNode controllerPods chromePods probe = some d) :
    ∃ p, p ∈ chromePods ∧ d = chromeNodeDns p.name ∧ isPodReady p = true ∧
      (checkChromeNodeStatus (probe d)).ready = true ∧
      (checkChromeNodeStatus (probe d)).sessions <
        (checkChromeNodeStatus (probe d)).maxSessions := by
  unfold getAvailableChromeNode at h
  cases hc : strOptTruthy (getPodName controllerPods) with
  | false => rw [hc] at h; exact absurd h (by simp)
  | true =>
    rw [hc] at h
    simp only [Bool.not_true, Bool.false_eq_true, if_false] at h
    cases chromePods with
    | nil => exact absurd h (by simp)
    | cons a rest =>
      rw [findAvailableNode_eq_find] at h
      obtain ⟨p, hfind, hmap⟩ := Option.map_eq_some'.mp h
      have hmem := List.mem_of_find?_eq_some hfind
      have hpred := List.find?_some hfind
      simp only [Bool.and_eq_true] at hpred
      obtain ⟨hready, havail⟩ := hpred
      subst hmap
      obtain ⟨h1, h2⟩ := available_ready_and_capacity _ havail
      exact ⟨p, hmem, rfl, hready, h1, h2⟩

/-- C1 witness: the amended safety statement at the empty-nodes fixture. -/
theorem C1_amended_selector_safety_witness :
    ∃ p, p ∈ [c0Pod] ∧ chromeNodeDns "chrome-node-0" = chromeNodeDns p.name ∧
      isPodReady p = true ∧
      (checkChromeNodeStatus (c1Probe (chromeNodeDns "chrome-node-0"))).ready = true ∧
      (checkChromeNodeStatus (c1Probe (chromeNodeDns "chrome-node-0"))).sessions <
        (checkChromeNodeStatus (c1Probe (chromeNodeDns "chrome-node-0"))).maxSessions :=
  C1_amended_selector_safety [ctrlPod] [c0Pod] c1Probe (chromeNodeDns "chrome-node-0")
    (by decide)

/-- C1 counterexample to the claim as stated: a cluster-ready pod whose probe
returns valid JSON with an empty nodes list is selected even though its
occupied-slot sum (0) equals its total slot count (0) in the probed body. -/
theorem C1_specific_counterexample :
    getAvailableChromeNode [ctrlPod] [c0Pod] c1Probe =
      some (chromeNodeDns "chrome-node-0") ∧
    specTotalSlotCount c1Body ≤ specOccupiedSlotCount c1Body ∧
    specTotalSlotCount c1Body = 0 := by
  refine ⟨by decide, by decide, by decide⟩

/-- C4: the node selector is first-fit over the listing order (probe failures
count as unavailable and the scan continues); with no candidate it returns
none; and in the 3-pod scenario (ready 1/1, not-ready, ready 0/1) it picks
the 0/1 pod. -/
theorem C4_first_fit (controllerPods chromePods : List Pod) (probe : String → ProbeResult)
    (hc : strOptTruthy (getPodName controllerPods) = true) :
    getAvailableChromeNode controllerPods chromePods probe =
      (chromePods.find? (fun p => isPodReady p &&
        (checkChromeNodeStatus (probe (chromeNodeDns p.name))).available)).map
        (fun p => chromeNodeDns p.name) ∧
    (checkChromeNodeStatus ProbeResult.execFail).available = false ∧
    (checkChromeNodeStatus ProbeResult.parseFail).available = false ∧
    getAvailableChromeNode [ctrlPod] [c4FullPod, c4NotReadyPod, c4FreePod] c4Probe =
      some (chromeNodeDns "chrome-node-2") := by
  refine ⟨?_, rfl, rfl, by decide⟩
  unfold getAvailableChromeNode
  rw [hc]
  simp only [Bool.not_true, Bool.false_eq_true, if_false]
  cases chromePods with
  | nil => rfl
  | cons a rest => exact findAvailableNode_eq_find probe (a :: rest)

/-- C4 witness: the first-fit characterisation at the 3-pod scenario. -/
theorem C4_first_fit_witness :
    getAvailableChromeNode [ctrlPod] [c4FullPod, c4NotReadyPod, c4FreePod] c4Probe =
      (([c4FullPod, c4NotReadyPod, c4FreePod].find? (fun p => isPodReady p &&
        (checkChromeNodeStatus (c4Probe (chromeNodeDns p.name))).available)).map
        (fun p => chromeNodeDns p.name)) :=
  (C4_first_fit [ctrlPod] [c4FullPod, c4NotReadyPod, c4FreePod] c4Probe (by decide)).1

/-- The substring scan decides list-infix containment. -/
theorem containsSub_iff (pat : List Char) :
    ∀ l, containsSub pat l = true ↔ List.IsInfix pat l := by
  intro l
  induction l with
  | nil => simp [containsSub, List.isPrefixOf_iff_prefix, List.infix_nil, List.prefix_nil]
  | cons a t ih =>
    simp [containsSub, List.isPrefixOf_iff_prefix, List.infix_cons_iff, ih]

/-- The string substring test decides infix containment of the char lists. -/
theorem strContains_iff (s pat : String) :
    strContains s pat = true ↔ List.IsInfix pat.data s.data :=
  containsSub_iff pat.data s.data

/-- The output heuristic holds exactly when the lower-cased output contains
"passed" but not "failed". -/
theorem heuristicPass_iff (out : String) :
    heuristicPass out = true ↔
      (List.IsInfix "passed".data (pyLower out).data ∧
       ¬ List.IsInfix "failed".data (pyLower out).data) := by
  simp only [heuristicPass, Bool.and_eq_true, Bool.not_eq_true']
  rw [strContains_iff]
  constructor
  · rintro ⟨h1, h2⟩
    refine ⟨h1, fun hc => ?_⟩
    rw [← strContains_iff] at hc
    rw [hc] at h2
    cases h2
  · rintro ⟨h1, h2⟩
    refine ⟨h1, ?_⟩
    cases hx : strContains (pyLower out) "failed" with
    | false => rfl
    | true => exact absurd ((strContains_iff _ _).mp hx) h2

/-- Retry-loop invariant of `executeTests`: the loop succeeds exactly when
some attempt in range exits zero or satisfies the output heuristic. -/
theorem executeLoop_true_iff (execRun : Nat → Int × String × String) :
    ∀ fuel attempt lastOut lastErr,
    ((executeLoop execRun fuel attempt lastOut lastErr).1 = true ↔
      ∃ k, attempt ≤ k ∧ k < attempt + fuel ∧
        ((execRun k).1 = 0 ∨
          (List.IsInfix "passed".data (pyLower (execRun k).2.1).data ∧
           ¬ List.IsInfix "failed".data (pyLower (execRun k).2.1).data))) := by
  intro fuel
  induction fuel with
  | zero =>
    intro attempt lastOut lastErr
    simp only [executeLoop]
    constructor
    · intro h; exact absurd h (by simp)
    · rintro ⟨k, h1, h2, _⟩; omega
  | succ fuel ih =>
    intro attempt lastOut lastErr
    simp only [executeLoop]
    by_cases h0 : (execRun attempt).1 = 0
    · rw [if_pos h0]
      simp only [true_iff]
      exact ⟨attempt, Nat.le_refl _, by omega, Or.inl h0⟩
    · rw [if_neg h0]
      cases hh : heuristicPass (execRun attempt).2.1 with
      | true =>
        simp only [if_true, true_iff]
        exact ⟨attempt, Nat.le_refl _, by omega, Or.inr ((heuristicPass_iff _).mp hh)⟩
      | false =>
        simp only [Bool.false_eq_true, if_false]
        rw [ih (attempt + 1) (execRun attempt).2.1 (execRun attempt).2.2]
        constructor
        · rintro ⟨k, h1, h2, h3⟩
          exact ⟨k, by omega, by omega, h3⟩
        · rintro ⟨k, h1, h2, h3⟩
          rcases Nat.eq_or_lt_of_le h1 with hk | hk
          · exfalso
            rcases hk ▸ h3 with hc | hc
            · exact h0 hc
            · rw [← heuristicPass_iff] at hc
              rw [hc] at hh
              exact absurd hh (by simp)
          · exact ⟨k, hk, by omega, h3⟩

/-- C5: for every sequence of exec results, `executeTests` reports success
exactly when some attempt within MAX_RETRIES has exit code zero or output
containing "passed" but not "failed" case-insensitively; any other attempt
outcome is a failure that is retried. -/
theorem C5_execute_success_criterion (env : ExecEnv) (testPath : String)
    (specificTests : Option (List String)) (node : String)
    (hc : strOptTruthy (getPodName env.controllerPods) = true)
    (hn : getAvailableChromeNode env.controllerPods env.chromePods env.probe = some node) :
    ((executeTests env testPath specificTests).1 = true ↔
      ∃ k, 1 ≤ k ∧ k ≤ MAX_RETRIES ∧
        ((env.execRun (remoteUrl node) (pytestCommand testPath specificTests) k).1 = 0 ∨
          (List.IsInfix "passed".data
            (pyLower (env.execRun (remoteUrl node) (pytestCommand testPath specificTests) k).2.1).data ∧
           ¬ List.IsInfix "failed".data
            (pyLower (env.execRun (remoteUrl node) (pytestCommand testPath specificTests) k).2.1).data))) := by
  have hM : MAX_RETRIES = 3 := rfl
  unfold executeTests
  rw [hc, hn]
  simp only [Bool.not_true, Bool.false_eq_true, if_false]
  rw [executeLoop_true_iff]
  constructor
  · rintro ⟨k, h1, h2, h3⟩; exact ⟨k, h1, by omega, h3⟩
  · rintro ⟨k, h1, h2, h3⟩; exact ⟨k, h1, by omega, h3⟩

/-- C5 witness: the success criterion at a fixture whose remote command exits
1 with output "2 passed in 0.10s" on every attempt. -/
theorem C5_execute_success_criterion_witness :
    (executeTests env5 "tests/" none).1 = true ↔
      ∃ k, 1 ≤ k ∧ k ≤ MAX_RETRIES ∧
        ((env5.execRun (remoteUrl (chromeNodeDns "chrome-node-0"))
            (pytestCommand "tests/" none) k).1 = 0 ∨
          (List.IsInfix "passed".data
            (pyLower (env5.execRun (remoteUrl (chromeNodeDns "chrome-node-0"))
              (pytestCommand "tests/" none) k).2.1).data ∧
           ¬ List.IsInfix "failed".data
            (pyLower (env5.execRun (remoteUrl (chromeNodeDns "chrome-node-0"))
              (pytestCommand "tests/" none) k).2.1).data)) :=
  C5_execute_success_criterion env5 "tests/" none (chromeNodeDns "chrome-node-0")
    (by decide) (by decide)

/-- C6 counterexample to the claim as stated: stdout "Tests passed, 0 failed"
contains the substring "failed", so the heuristic does not fire and the
non-zero exit makes `executeTests` report failure. -/
theorem C6_specific_counterexample :
    executeTests env6 "tests/" none = (false, "Tests passed, 0 failed") ∧
    heuristicPass "Tests passed, 0 failed" = false := by
  refine ⟨by decide, by decide⟩

/-- C6 (amended): the textual-heuristic fallback reports success on a
non-zero exit only when stdout contains "passed" and not "failed"; it does
so for "Tests passed, 0 errors", while "Tests passed, 0 failed" fails after
all retries. -/
theorem C6_amended_heuristic_path :
    executeTests env6b "tests/" none = (true, "Tests passed, 0 errors") ∧
    heuristicPass "Tests passed, 0 errors" = true ∧
    (env6b.execRun (remoteUrl (chromeNodeDns "chrome-node-0"))
      (pytestCommand "tests/" none) 1).1 ≠ 0 ∧
    executeTests env6 "tests/" none = (false, "Tests passed, 0 failed") := by
  refine ⟨by decide, by decide, by decide, by decide⟩

/-- Retry-loop invariant of `passTestCases`: when no attempt's output yields a
qualifying line, every fuel level returns the empty list. -/
theorem passTestCasesLoop_empty (controllerLookup : Nat → Option String)
    (collectExec : Nat → Int × String × String)
    (h : ∀ k, collectTestCases (collectExec k).2.1 = []) :
    ∀ fuel attempt, passTestCasesLoop controllerLookup collectExec fuel attempt = [] := by
  intro fuel
  induction fuel with
  | zero => intro attempt; rfl
  | succ fuel ih =>
    intro attempt
    simp only [passTestCasesLoop]
    cases hx : strOptTruthy (controllerLookup attempt) with
    | false => simpa using ih (attempt + 1)
    | true => simp [h attempt, ih (attempt + 1)]

/-- C7: if no retry attempt's collection output contains a qualifying line,
`passTestCases` reports the empty list, and `run` still proceeds to the
execution stage, which uses the run-all fallback command over the whole
"tests/" path. -/
theorem C7_collection_fallback :
    (∀ (controllerLookup : Nat → Option String) (collectExec : Nat → Int × String × String),
      (∀ k, collectTestCases (collectExec k).2.1 = []) →
      passTestCases controllerLookup collectExec = []) ∧
    (∀ (env : RunEnv) (hcp : Option String) (nc : Option Int) (sd : Bool),
      (deployAttempted hcp sd = true → (deployStage env).1 = true) →
      (checkReadiness env.timeout env.interval env.chromePolls (effectiveNodeCount nc)).1 = true →
      (checkReadiness env.timeout env.interval env.controllerPolls 1).1 = true →
      (∀ k, collectTestCases (env.collectExec k).2.1 = []) →
      passTestCases env.collectController env.collectExec = [] ∧
      run env hcp nc sd = (executeTests env.execEnv "tests/" none).1) ∧
    pytestCommand "tests/" none =
      ["python", "-m", "pytest", "tests/", "-v", "--tb=short", "-p", "no:cacheprovider"] := by
  refine ⟨?_, ?_, rfl⟩
  · intro controllerLookup collectExec h
    exact passTestCasesLoop_empty controllerLookup collectExec h MAX_RETRIES 1
  · intro env hcp nc sd hd h1 h2 hc
    refine ⟨passTestCasesLoop_empty env.collectController env.collectExec hc MAX_RETRIES 1, ?_⟩
    unfold run runT
    cases hda : deployAttempted hcp sd with
    | false => simp [hda, h1, h2]
    | true => simp [hda, hd hda, h1, h2]

/-- C7 witness: the fallback behaviour at a fixture whose collection output
never contains "::" while execution succeeds. -/
theorem C7_collection_fallback_witness :
    passTestCases env7.collectController env7.collectExec = [] ∧
    run env7 (some "./helm/insider-testops") (some 1) false =
      (executeTests env7.execEnv "tests/" none).1 :=
  C7_collection_fallback.2.1 env7 (some "./helm/insider-testops") (some 1) false
    (fun _ => by decide) (by decide) (by decide)
    (fun k => (by decide : collectTestCases "no tests ran in 0.01s" = []))

/-- C8 counterexample to the claim as stated: the CollectTests stage fails
(empty list after all retries) yet the sequence is not halted — ExecuteTests
still runs and the whole run reports success. -/
theorem C8_specific_counterexample :
    passTestCases env8.collectController env8.collectExec = [] ∧
    run env8 (some "./helm/insider-testops") (some 1) false = true ∧
    runT env8 (some "./helm/insider-testops") (some 1) false =
      (true, ["deploy", "readyWorkers", "readyController", "collectTests", "executeTests"]) := by
  refine ⟨by decide, by decide, by decide⟩

/-- C8 (amended): failure of Deploy, ReadyWorkers or ReadyController halts the
sequence with an overall failure and no later stage executed; CollectTests
failure does not halt (run proceeds to ExecuteTests with the fallback); the
overall result is ExecuteTests' boolean, and the driver branches only on
the stages' boolean signals. -/
theorem C8_amended_halting (env : RunEnv) (hcp : Option String) (nc : Option Int)
    (sd : Bool) :
    (deployAttempted hcp sd = true → (deployStage env).1 = false →
      runT env hcp nc sd = (false, ["deploy"])) ∧
    ((deployAttempted hcp sd = true → (deployStage env).1 = true) →
      (checkReadiness env.timeout env.interval env.chromePolls (effectiveNodeCount nc)).1 = false →
      runT env hcp nc sd =
        (false, (if deployAttempted hcp sd then ["deploy"] else []) ++ ["readyWorkers"])) ∧
    ((deployAttempted hcp sd = true → (deployStage env).1 = true) →
      (checkReadiness env.timeout env.interval env.chromePolls (effectiveNodeCount nc)).1 = true →
      (checkReadiness env.timeout env.interval env.controllerPolls 1).1 = false →
      runT env hcp nc sd =
        (false, (if deployAttempted hcp sd then ["deploy"] else []) ++
          ["readyWorkers", "readyController"])) ∧
    ((deployAttempted hcp sd = true → (deployStage env).1 = true) →
      (checkReadiness env.timeout env.interval env.chromePolls (effectiveNodeCount nc)).1 = true →
      (checkReadiness env.timeout env.interval env.controllerPolls 1).1 = true →
      runT env hcp nc sd =
        ((executeTests env.execEnv "tests/" none).1,
          (if deployAttempted hcp sd then ["deploy"] else []) ++
            ["readyWorkers", "readyController", "collectTests", "executeTests"])) := by
  refine ⟨?_, ?_, ?_, ?_⟩
  · intro hda hfail
    unfold runT
    simp [hda, hfail]
  · intro hd h1
    unfold runT
    cases hda : deployAttempted hcp sd with
    | false => simp [hda, h1]
    | true => simp [hda, hd hda, h1]
  · intro hd h1 h2
    unfold runT
    cases hda : deployAttempted hcp sd with
    | false => simp [hda, h1, h2]
    | true => simp [hda, hd hda, h1, h2]
  · intro hd h1 h2
    unfold runT
    cases hda : deployAttempted hcp sd with
    | false => simp [hda, h1, h2]
    | true => simp [hda, hd hda, h1, h2]

/-- C8 witness: a run whose deployment fails on every wrapper attempt halts
after the deploy stage. -/
theorem C8_amended_halting_witness :
    runT env8f (some "./helm/insider-testops") (some 1) false = (false, ["deploy"]) :=
  (C8_amended_halting env8f (some "./helm/insider-testops") (some 1) false).1
    (by decide) (by decide)

end Orchestrator
